import Mathlib

/-!
Verification of the natural-language specification of the zkevm-circuits MPT
account-leaf constraint gadget (`AccountLeafConfig` in
`mpt_circuit/account_leaf.rs`) and of the row/proof-type selectors automaton
(`SelectorsConfig` in `mpt_circuit/selectors.rs`).

The registered polynomial identities of the two `configure` functions are
embedded shallowly: every advice/fixed cell a gate reads becomes a field of an
environment record, and every registered identity becomes one field-valued
expression; a witness satisfies the gate when every registered expression
evaluates to zero.  Sub-gadget internals (`helpers.rs`, `rlp_gadgets.rs`,
`param.rs`, the memory channel and the lookup backend) are not part of the
given sources; their outputs appear as abstract environment fields, and the
few constants/semantics a claim needs from the missing files are modelled
from the spec and marked as such in their doc comments.
-/

namespace ZkevmMpt

/-! ## Selectors automaton (selectors.rs, `SelectorsConfig::configure`) -/

/-- One row of the columns read by the `"Selectors"` gate of
`SelectorsConfig::configure`.  The gate queries each advice column at the
current and the previous rotation (`ColumnTransition`); this is modelled by
passing two `SelRow`s (previous, current) to the embedded gate.  Note that in
the source `is_leaf_non_existing` and `is_non_existing_storage_row` are two
names for the same column `storage_leaf.is_non_existing`; the single field
`isLeafNonExisting` stands for both. -/
structure SelRow (F : Type) where
  qEnable : F
  qNotFirst : F
  notFirstLevel : F
  sel1 : F
  sel2 : F
  isLeafSKey : F
  isLeafSValue : F
  isLeafCKey : F
  isLeafCValue : F
  isLeafInAddedBranch : F
  isLeafNonExisting : F
  isAccountLeafKeyS : F
  isAccountLeafKeyC : F
  isAccountLeafNonceBalanceS : F
  isAccountLeafNonceBalanceC : F
  isAccountLeafStorageCodehashS : F
  isAccountLeafStorageCodehashC : F
  isAccountLeafInAddedBranch : F
  isNonExistingAccountRow : F
  isExtensionNodeS : F
  isExtensionNodeC : F
  isBranchInit : F
  isBranchChild : F
  isLastBranchChild : F
  isModified : F
  isAtDriftedPos : F
  proofTypeId : F
  isStorageMod : F
  isNonceMod : F
  isBalanceMod : F
  isCodehashMod : F
  isAccountDeleteMod : F
  isNonExistingAccountProof : F
  isNonExistingStorageProof : F

variable {F : Type} [Field F]

/-- Boolean disjunction of selector expressions, `gadgets::util::or`
(external collaborator crate of the sources): `or(a, b) = 1 - (1-a)(1-b)`. -/
def orE (a b : F) : F := 1 - (1 - a) * (1 - b)

/-- The `row_type_selectors` array of `SelectorsConfig::configure`
(selectors.rs lines 87-106), in source order. -/
def rowTypeSelectors (c : SelRow F) : List F :=
  [c.isBranchInit, c.isBranchChild, c.isExtensionNodeS, c.isExtensionNodeC,
   c.isLeafSKey, c.isLeafCKey, c.isLeafSValue, c.isLeafCValue,
   c.isLeafInAddedBranch, c.isLeafNonExisting,
   c.isAccountLeafKeyS, c.isAccountLeafKeyC, c.isNonExistingAccountRow,
   c.isAccountLeafNonceBalanceS, c.isAccountLeafNonceBalanceC,
   c.isAccountLeafStorageCodehashS, c.isAccountLeafStorageCodehashC,
   c.isAccountLeafInAddedBranch]

/-- The `proof_type_selectors` array (selectors.rs lines 109-117),
in source order. -/
def proofTypeSelectors (c : SelRow F) : List F :=
  [c.isNonceMod, c.isBalanceMod, c.isCodehashMod, c.isNonExistingAccountProof,
   c.isAccountDeleteMod, c.isStorageMod, c.isNonExistingStorageProof]

/-- The `misc_selectors` vector (selectors.rs lines 126-133), in source
order. -/
def miscSelectors (c : SelRow F) : List F :=
  [c.notFirstLevel, c.isLastBranchChild, c.isBranchChild * c.sel1,
   c.isBranchChild * c.sel2, c.isModified, c.isAtDriftedPos]

/-- The zip of `proof_type_selectors` with `proof_type_lookup_row_types`
together with the expected `proof_type_id` value `idx + 1`
(selectors.rs lines 150-171). -/
def proofRowPairs (c : SelRow F) : List (F × F × F) :=
  [(c.isNonceMod, c.isAccountLeafNonceBalanceS, 1),
   (c.isBalanceMod, c.isAccountLeafNonceBalanceC, 2),
   (c.isCodehashMod, c.isAccountLeafStorageCodehashC, 3),
   (c.isNonExistingAccountProof, c.isNonExistingAccountRow, 4),
   (c.isAccountDeleteMod, c.isAccountLeafKeyS, 5),
   (c.isStorageMod, c.isLeafCValue, 6),
   (c.isNonExistingStorageProof, c.isLeafNonExisting, 7)]

/-- The `transitions` table of `(condition, to, predecessor set)` triples
(selectors.rs lines 183-305), in source order.  Each entry compiles to the
identity
`q_not_first * condition * prod (to - from_i) = 0` (`require_in_set`). -/
def selTransitions (p c : SelRow F) : List (F × F × List F) :=
  [(1, c.isBranchInit,
      [p.isExtensionNodeC, p.isAccountLeafInAddedBranch, p.isLeafNonExisting]),
   (c.isAccountLeafKeyS, c.isAccountLeafKeyS,
      [p.isExtensionNodeC, p.isLeafNonExisting]),
   (c.isLeafSKey, c.isLeafSKey,
      [p.isExtensionNodeC, p.isAccountLeafInAddedBranch]),
   (1, c.isExtensionNodeS, [p.isLastBranchChild]),
   (1, c.isExtensionNodeC, [p.isExtensionNodeS]),
   (1, c.isAccountLeafKeyC, [p.isAccountLeafKeyS]),
   (1, c.isNonExistingAccountRow, [p.isAccountLeafKeyC]),
   (1, c.isAccountLeafNonceBalanceS, [p.isNonExistingAccountRow]),
   (1, c.isAccountLeafNonceBalanceC, [p.isAccountLeafNonceBalanceS]),
   (1, c.isAccountLeafStorageCodehashS, [p.isAccountLeafNonceBalanceC]),
   (1, c.isAccountLeafStorageCodehashC, [p.isAccountLeafStorageCodehashS]),
   (1, c.isAccountLeafInAddedBranch, [p.isAccountLeafStorageCodehashC]),
   (1, c.isLeafSValue, [p.isLeafSKey]),
   (1, c.isLeafCKey, [p.isLeafSValue]),
   (1, c.isLeafCValue, [p.isLeafCKey]),
   (1, c.isLeafInAddedBranch, [p.isLeafCValue]),
   (1, c.isLeafNonExisting, [p.isLeafInAddedBranch])]

/-- The `modifications` list of proof-type flag columns as
`(previous value, current value)` pairs (selectors.rs lines 319-333),
in source order. -/
def proofFlagPairs (p c : SelRow F) : List (F × F) :=
  [(p.isNonceMod, c.isNonceMod), (p.isBalanceMod, c.isBalanceMod),
   (p.isCodehashMod, c.isCodehashMod),
   (p.isNonExistingAccountProof, c.isNonExistingAccountProof),
   (p.isAccountDeleteMod, c.isAccountDeleteMod),
   (p.isStorageMod, c.isStorageMod),
   (p.isNonExistingStorageProof, c.isNonExistingStorageProof)]

/-- All identities registered by the `"Selectors"` gate of
`SelectorsConfig::configure` (selectors.rs lines 34-352), evaluated at one
(previous row, current row) pair.  `ifx` condition scoping multiplies an
identity by its condition expression; `require!(x => bool)` registers
`x * (1 - x)`; `require!(a => b)` registers `a - b`;
`require!(name, to => from-set)` registers the `require_in_set` product.
The order in which identities are listed is immaterial (the gate requires
every one of them to vanish); here the booleanness checks, the two sum
checks, the proof-type/lookup-row checks, the first-row check, the
transition checks, and the two flag-persistence families are listed in
source order, with the two persistence identities of each flag grouped by
family instead of by flag. -/
def SelectorsConfig.configure (p c : SelRow F) : List F :=
  ((miscSelectors c ++ rowTypeSelectors c ++ proofTypeSelectors c).map
      (fun s => c.qEnable * (s * (1 - s))))
  ++ [c.qEnable * ((rowTypeSelectors c).sum - 1),
      c.qEnable * ((proofTypeSelectors c).sum - 1)]
  ++ ((proofRowPairs c).map
      (fun x => c.qEnable * (c.proofTypeId * x.1 * (x.2.1 - 1))))
  ++ ((proofRowPairs c).map
      (fun x => c.qEnable * (c.proofTypeId * x.2.1 * (c.proofTypeId - x.2.2))))
  ++ [c.qEnable * (1 - c.qNotFirst) * (orE c.isAccountLeafKeyS c.isBranchInit - 1)]
  ++ ((selTransitions p c).map
      (fun t => c.qNotFirst * t.1 * ((t.2.2.map (fun x => t.2.1 - x)).prod)))
  ++ ((proofFlagPairs p c).map
      (fun x => c.qNotFirst * (c.notFirstLevel * (x.1 - x.2))))
  ++ ((proofFlagPairs p c).map
      (fun x => c.qNotFirst * ((1 - c.notFirstLevel) *
        ((1 - c.isBranchInit) * ((1 - c.isAccountLeafKeyS) * (x.1 - x.2))))))

/-- A (previous row, current row) pair satisfies the `"Selectors"` gate when
every registered identity evaluates to zero. -/
def selectorsHolds (p c : SelRow F) : Prop :=
  ∀ x ∈ SelectorsConfig.configure p c, x = 0

instance (p c : SelRow F) [DecidableEq F] : Decidable (selectorsHolds p c) := by
  unfold selectorsHolds
  exact List.decidableBAll _ _

/-! ## Account leaf gadget (account_leaf.rs, `AccountLeafConfig`) -/

/-- Modelled from the spec: `KEY_LEN_IN_NIBBLES` lives in `param.rs`, which
is absent from the given sources; the spec fixes it to 64 (64 nibbles for a
256-bit key, spec section 3). -/
def KEY_LEN_IN_NIBBLES : ℕ := 64

/-- Modelled from the spec: `RLP_LONG` lives in `param.rs` (absent); the
standard RLP long-string tag base the spec's RLP parsing rule describes.
No claim depends on its numeric value. -/
def RLP_LONG : ℕ := 183

/-- Modelled from the spec: `RLP_LIST_LONG` lives in `param.rs` (absent);
the standard RLP long-list tag base.  No claim depends on its numeric
value. -/
def RLP_LIST_LONG : ℕ := 247

/-- Modelled from the spec: `HASH_WIDTH` lives in `param.rs` (absent); the
spec fixes storage root and code hash to 32-byte strings. -/
def HASH_WIDTH : ℕ := 32

/-- The witness environment of one account-leaf region, as read by
`AccountLeafConfig::configure`.  Fields indexed by `Bool` follow the
source's `is_s.idx()` indexing: `true` is the S (before) side, `false` the
C (after) side.  Outputs of sub-gadgets whose construction lives in the
absent `helpers.rs`/`rlp_gadgets.rs` (`KeyData::load`, `ParentData::load`,
`IsEmptyTreeGadget`, `LeafKeyGadget`, `RLPValueGadget`) and queried cells
(`key_mult`, `nonce_mult`, `balance_mult`), are abstract fields here; the
constraints `configure` places on and between them are what is embedded. -/
structure ALEnv (F : Type) where
  /-- the RLC challenge (spec section 2); `ctx.r` is its power vector -/
  r : F
  keyDataRlc : Bool → F
  keyDataMult : Bool → F
  keyDataNumNibbles : Bool → F
  keyDataIsOdd : Bool → F
  keyDataIsPlaceholderLeafC : Bool → F
  parentDataRlc : Bool → F
  parentDataIsPlaceholder : Bool → F
  /-- `config.is_empty_trie[i].expr()` -/
  isEmptyTrie : Bool → F
  /-- `rlp_key.rlc(&r)` -/
  rlpKeyRlc : Bool → F
  /-- `rlp_key.leaf_key_rlc(cb, key_data.mult, key_data.is_odd, 1, &r)` -/
  leafKeyRlc : Bool → F
  /-- `config.rlp_key[i].num_bytes()` -/
  rlpKeyNumBytes : Bool → F
  /-- `rlp_key.num_bytes_on_key_row()` -/
  rlpKeyNumBytesOnKeyRow : Bool → F
  /-- `rlp_key.num_key_nibbles(key_data.is_odd.expr())` -/
  rlpKeyNumKeyNibbles : Bool → F
  /-- `config.rlp_nonce[i].rlc(&r)`, value and rlp parts -/
  nonceRlc : Bool → F
  nonceRlpRlc : Bool → F
  nonceNumBytes : Bool → F
  balanceRlc : Bool → F
  balanceRlpRlc : Bool → F
  balanceNumBytes : Bool → F
  storageRlc : Bool → F
  storageRlpRlc : Bool → F
  /-- `config.rlp_storage[i].len()` -/
  storageLen : Bool → F
  codehashRlc : Bool → F
  codehashRlpRlc : Bool → F
  codehashLen : Bool → F
  keyMult : Bool → F
  nonceMult : Bool → F
  balanceMult : Bool → F
  /-- the four `value_rlp_bytes` cells per side (s_rlp1, s_rlp2, c_rlp1, c_rlp2) -/
  valueRlpBytes : Bool → Fin 4 → F
  /-- `a!(ctx.proof_type.is_account_delete_mod)` at rotation 0 -/
  isAccountDeleteMod : F
  /-- `a!(proof_type.is_nonce_mod, nonce_lookup_offset)` at rotation 2 -/
  isNonceMod : F
  /-- at rotation 3 -/
  isBalanceMod : F
  /-- at rotation 4 -/
  isStorageMod : F
  /-- at rotation 5 -/
  isCodehashMod : F
  /-- `a!(ctx.proof_type.is_non_existing_account_proof)` at rotation 0 -/
  isNonExistingAccountProof : F
  /-- `a!(ctx.mpt_table.address_rlc)` -/
  addressRlc : F
  /-- `mpt_table.value_prev`/`value` at rotations 2 (nonce), 3 (balance),
  4 (storage), 5 (codehash) -/
  valuePrevNonce : F
  valueNonce : F
  valuePrevBalance : F
  valueBalance : F
  valuePrevStorage : F
  valueStorage : F
  valuePrevCodehash : F
  valueCodehash : F

/-- Modelled from the spec: the RLC encoding of a sequence as one field
element, `RLC(v, r) = sum of v[i] * r^i` (spec section 2 and glossary);
the `RLCable::rlc` implementation lives in the absent `circuit_tools`. -/
def rlcList (r : F) : List F → F
  | [] => 0
  | x :: xs => x + r * rlcList r xs

/-- Modelled from the spec: RLC chaining `(a, m).rlc_chain(b) = a + m * b`,
the composition of field RLCs with their cumulative multipliers described in
spec section 4.3 step 4; `RLCChainable` lives in the absent
`circuit_tools`. -/
def rlcChain (a m b : F) : F := a + m * b

/-- The `leaf_no_key_rlc` expression of `AccountLeafConfig::configure`
(account_leaf.rs lines 171-183): the value-list bytes chained as
`[value_rlp_bytes, nonce_rlp_rlc]` then balance, storage and codehash, with
the lookup-derived multipliers and `r[32]`.  The source's power vector
satisfies `r[i] = r^(i+1)` (the multiplier of an `i+1`-byte chunk, spec
section 4.1), so `r[32]` is `r^33`, the multiplier of the 33-byte
(1 length byte + 32 hash bytes) storage field. -/
def leafNoKeyRlc (e : ALEnv F) (s : Bool) : F :=
  rlcChain 0 1
    (rlcChain
      (rlcList e.r [e.valueRlpBytes s 0, e.valueRlpBytes s 1,
                    e.valueRlpBytes s 2, e.valueRlpBytes s 3, e.nonceRlpRlc s])
      (e.nonceMult s)
      (rlcChain (e.balanceRlpRlc s) (e.balanceMult s)
        (rlcChain (e.storageRlpRlc s) (e.r ^ 33) (e.codehashRlpRlc s))))

/-- The `leaf_rlc` expression (account_leaf.rs lines 184-185). -/
def leafRlc (e : ALEnv F) (s : Bool) : F :=
  rlcChain (e.rlpKeyRlc s) (e.keyMult s) (leafNoKeyRlc e s)

/-- The `key_rlc` expression (account_leaf.rs lines 188-195). -/
def keyRlc (e : ALEnv F) (s : Bool) : F :=
  e.keyDataRlc s + e.leafKeyRlc s

/-- The tables the account-leaf gadget looks up into: the fixed `RMult`
multiplier table and the keccak hash table. -/
inductive LookupTable
  | fixedRMult
  | keccak
deriving DecidableEq, BEq

/-- One registered lookup: when `cond` is zero the looked-up tuple is
scaled to the table's all-zero disabled row, eliding the lookup; when
`cond` is one, `values` must be a row of `table`. -/
structure Lookup (F : Type) where
  cond : F
  table : LookupTable
  values : List F
deriving DecidableEq

/-- The keccak membership lookup of one side (account_leaf.rs lines
200-204): registered under the condition
`not(and(not(parent_data.is_placeholder), is_empty_trie))`, with tuple
`(1, leaf_rlc, rlp_key.num_bytes(), parent_data.rlc)`. -/
def keccakLookup (e : ALEnv F) (s : Bool) : Lookup F :=
  ⟨1 - (1 - e.parentDataIsPlaceholder s) * e.isEmptyTrie s,
   .keccak,
   [1, leafRlc e s, e.rlpKeyNumBytes s, e.parentDataRlc s]⟩

/-- The lookups registered for one side by `AccountLeafConfig::configure`:
the three `FixedTableTag::RMult` multiplier lookups (lines 153-155; the
`RMult` tag component is folded into the table tag) and the keccak
membership lookup. -/
def sideLookups (e : ALEnv F) (s : Bool) : List (Lookup F) :=
  [⟨1, .fixedRMult, [e.rlpKeyNumBytesOnKeyRow s, e.keyMult s]⟩,
   ⟨1, .fixedRMult, [e.nonceNumBytes s + 4, e.nonceMult s]⟩,
   ⟨1, .fixedRMult, [e.balanceNumBytes s, e.balanceMult s]⟩,
   keccakLookup e s]

/-- The equality identities registered for one side of the account leaf
(account_leaf.rs lines 147-148, 198, 209-221), in source order.  Each
expression must vanish on a satisfying witness. -/
def sideConstraints (e : ALEnv F) (s : Bool) : List F :=
  [e.storageLen s - (HASH_WIDTH : F),
   e.codehashLen s - (HASH_WIDTH : F),
   (e.keyDataNumNibbles s + e.rlpKeyNumKeyNibbles s) - (KEY_LEN_IN_NIBBLES : F),
   e.valueRlpBytes s 0 - ((RLP_LONG : F) + 1),
   e.valueRlpBytes s 1 - (e.valueRlpBytes s 3 + 2),
   e.valueRlpBytes s 2 - ((RLP_LIST_LONG : F) + 1),
   e.valueRlpBytes s 3 -
     (e.nonceNumBytes s + e.balanceNumBytes s + (2 * (1 + 32) : ℕ)),
   e.rlpKeyNumBytes s -
     (e.rlpKeyNumBytesOnKeyRow s + (e.valueRlpBytes s 1 + 2))]

/-- One store into the key or parent memory channel of one trie side. -/
inductive MemOp (F : Type)
  | keyStore (side : Bool) (values : List F)
  | parentStore (side : Bool) (values : List F)
deriving DecidableEq

/-- `KeyData::default_values()` as fixed by the assignment-side
`witness_store` call of the source (account_leaf.rs lines 464-477): RLC 0,
multiplier 1, zero nibbles, even, no placeholder flags, drifted RLC 0 and
multiplier 1. -/
def keyDataDefaultValues : List F := [0, 1, 0, 0, 0, 0, 0, 0, 1]

/-- The memory-channel stores of one side (account_leaf.rs lines 224-239):
the key channel is reset to the default values and the parent channel
receives `[storage_rlc, true, false, storage_rlc]`. -/
def sideMemOps (e : ALEnv F) (s : Bool) : List (MemOp F) :=
  [.keyStore s keyDataDefaultValues,
   .parentStore s [e.storageRlc s, 1, 0, e.storageRlc s]]

/-- The output of `AccountLeafConfig::configure`: the registered equality
identities, lookups and memory-channel stores.  The constraints internal to
the sub-gadgets constructed here (`DriftedGadget`, `WrongGadget`,
`IsEmptyTreeGadget`, the RLP gadgets, the memory-channel load lookups and
the byte-range machinery of `cb.set_length`) live in the absent
`helpers.rs`/`rlp_gadgets.rs` and are not registered by this function
itself; omitting them only weakens the satisfaction hypothesis of the
theorems below. -/
structure ConfigureOutput (F : Type) where
  constraints : List F
  lookups : List (Lookup F)
  memOps : List (MemOp F)

/-- Shallow embedding of `AccountLeafConfig::configure` (account_leaf.rs
lines 53-336): the per-side identities, lookups and stores for the S side
then the C side (the source's `for is_s in [true, false]` loop), followed by
the account-delete check (lines 284-289), the single-modification checks
(lines 293-310), the `address_rlc` bindings (lines 312-321) and the
MPT-table lookup-data bindings (lines 325-332). -/
def AccountLeafConfig.configure (e : ALEnv F) : ConfigureOutput F where
  constraints :=
    sideConstraints e true ++ sideConstraints e false ++
    [e.isAccountDeleteMod *
       (orE (e.keyDataIsPlaceholderLeafC false) (e.parentDataIsPlaceholder false) - 1),
     (1 - e.isAccountDeleteMod) *
       ((1 - e.isNonceMod) * (e.nonceRlc false - e.nonceRlc true)),
     (1 - e.isAccountDeleteMod) *
       ((1 - e.isBalanceMod) * (e.balanceRlc false - e.balanceRlc true)),
     (1 - e.isAccountDeleteMod) *
       ((1 - e.isStorageMod) * (e.storageRlc false - e.storageRlc true)),
     (1 - e.isAccountDeleteMod) *
       ((1 - e.isCodehashMod) * (e.codehashRlc false - e.codehashRlc true)),
     (1 - e.parentDataIsPlaceholder true) *
       ((1 - e.isNonExistingAccountProof) * (e.addressRlc - keyRlc e true)),
     (1 - e.parentDataIsPlaceholder false) *
       ((1 - e.isNonExistingAccountProof) * (e.addressRlc - keyRlc e false)),
     e.valuePrevNonce - e.nonceRlc true,
     e.valueNonce - e.nonceRlc false,
     e.valuePrevBalance - e.balanceRlc true,
     e.valueBalance - e.balanceRlc false,
     e.valuePrevStorage - e.storageRlc true,
     e.valueStorage - e.storageRlc false,
     e.valuePrevCodehash - e.codehashRlc true,
     e.valueCodehash - e.codehashRlc false]
  lookups := sideLookups e true ++ sideLookups e false
  memOps := sideMemOps e true ++ sideMemOps e false

/-- A witness satisfies the account-leaf gadget's own equality identities
when every registered expression evaluates to zero. -/
def accountLeafHolds (e : ALEnv F) : Prop :=
  ∀ x ∈ (AccountLeafConfig.configure e).constraints, x = 0

instance (e : ALEnv F) [DecidableEq F] : Decidable (accountLeafHolds e) := by
  unfold accountLeafHolds
  exact List.decidableBAll _ _

/-! ## ParentData decoding (spec section 3 / section 4.3 step 9) -/

/-- The decoded view of a parent-channel tuple, with the field names of the
spec's ParentData record (section 3). -/
structure ParentData (F : Type) where
  rlc : F
  markerFlag : F
  isPlaceholder : F
  hashRlc : F
deriving DecidableEq

/-- Modelled from the spec: the positional layout of a parent-channel tuple
is fixed in the absent `helpers.rs` (`ParentData::load`/`store`).  Per spec
section 4.3 step 9 the account-leaf store carries the storage-root RLC as
both the parent RLC and the parent hash RLC (the outer components) and is
marked not-placeholder, which places `rlc` at position 0, `is_placeholder`
at position 2 and `hash_rlc` at position 3; position 1 is the remaining
marker flag (set here because the account leaf is the root of the
per-account storage trie). -/
def decodeParentData : List F → ParentData F
  | [a, b, c, d] => ⟨a, b, c, d⟩
  | _ => ⟨0, 0, 0, 0⟩

/-- The values passed to `ParentData::witness_store` by
`AccountLeafConfig::assign` for one side (account_leaf.rs lines 478-486):
`(storage_value_rlc, true, false, storage_value_rlc)`. -/
def assignParentStoreValues (storageValueRlc : F) : List F :=
  [storageValueRlc, 1, 0, storageValueRlc]

/-! ## Assignment-side lookup data (account_leaf.rs, `AccountLeafConfig::assign`) -/

/-- Modelled from the spec: an MPT witness row (`witness_row.rs` is absent
from the given sources), reduced to the reversed-position byte accessor
`get_byte_rev` that `assign` reads the proof-type flag bytes through. -/
structure MptWitnessRow where
  getByteRev : ℕ → ℕ

/-- Modelled from the spec: the flag-byte positions live in the absent
`param.rs`; the claims depend only on which witness row each position is
read from, not on the numeric values, which are kept distinct here. -/
def IS_ACCOUNT_DELETE_MOD_POS : ℕ := 1

/-- Modelled from the spec: see `IS_ACCOUNT_DELETE_MOD_POS`. -/
def IS_CODEHASH_MOD_POS : ℕ := 2

/-- Modelled from the spec: see `IS_ACCOUNT_DELETE_MOD_POS`. -/
def IS_BALANCE_MOD_POS : ℕ := 3

/-- Modelled from the spec: see `IS_ACCOUNT_DELETE_MOD_POS`. -/
def IS_NONCE_MOD_POS : ℕ := 4

/-- The proof-type enum (spec section 3).  The numeric codes follow the
`proof_type_id => idx + 1` identities of `SelectorsConfig::configure`
(selectors.rs lines 150-171), which fix the code of each proof kind on its
lookup row. -/
inductive ProofType
  | NonceChanged
  | BalanceChanged
  | CodeHashExists
  | AccountDoesNotExist
  | AccountDeleteMod
  | StorageChanged
  | StorageDoesNotExist
deriving DecidableEq

/-- The numeric code (`Scalar`) of a proof type. -/
def ProofType.scalar : ProofType → ℕ
  | .NonceChanged => 1
  | .BalanceChanged => 2
  | .CodeHashExists => 3
  | .AccountDoesNotExist => 4
  | .AccountDeleteMod => 5
  | .StorageChanged => 6
  | .StorageDoesNotExist => 7

/-- The columns written by the lookup-data section of
`AccountLeafConfig::assign`. -/
inductive MptCol
  | proofTypeCol
  | valuePrevCol
  | valueCol
deriving DecidableEq

/-- One cell assignment `(column, row offset, value)`. -/
structure CellWrite (F : Type) where
  col : MptCol
  offset : ℕ
  value : F
deriving DecidableEq

/-- Shallow embedding of the lookup-data section of
`AccountLeafConfig::assign` (account_leaf.rs lines 510-536), parameterized
by the witness rows read (`key_s` at `base_offset - 1`, `nonce_balance_s` at
`base_offset + 2`, `nonce_balance_c` at `base_offset + 3`,
`storage_codehash_c` at `base_offset + 5`) and by the field-value RLCs
computed earlier in `assign` from the RLP witnesses.  Each conditional
`proof_type` write and each unconditional `value_prev`/`value` write is
listed in source order.  The sub-gadget `assign` calls earlier in the
function (drifted/wrong handling, absent `helpers.rs`) write other columns
or other offsets and are not part of this section. -/
def accountLeafLookupWrites (keyS nonceBalanceS nonceBalanceC storageCodehashC : MptWitnessRow)
    (baseOffset : ℕ)
    (nonceValueRlc balanceValueRlc storageValueRlc codehashValueRlc : Bool → F) :
    List (CellWrite F) :=
  (if keyS.getByteRev IS_ACCOUNT_DELETE_MOD_POS = 1 then
    [⟨.proofTypeCol, baseOffset - 1, (ProofType.AccountDoesNotExist.scalar : F)⟩]
   else [])
  ++ (if nonceBalanceS.getByteRev IS_NONCE_MOD_POS = 1 then
    [⟨.proofTypeCol, baseOffset + 2, (ProofType.NonceChanged.scalar : F)⟩]
   else [])
  ++ [⟨.valuePrevCol, baseOffset + 2, nonceValueRlc true⟩,
      ⟨.valueCol, baseOffset + 2, nonceValueRlc false⟩]
  ++ (if nonceBalanceC.getByteRev IS_BALANCE_MOD_POS = 1 then
    [⟨.proofTypeCol, baseOffset + 3, (ProofType.BalanceChanged.scalar : F)⟩]
   else [])
  ++ [⟨.valuePrevCol, baseOffset + 3, balanceValueRlc true⟩,
      ⟨.valueCol, baseOffset + 3, balanceValueRlc false⟩]
  ++ [⟨.valuePrevCol, baseOffset + 4, storageValueRlc true⟩,
      ⟨.valueCol, baseOffset + 4, storageValueRlc false⟩]
  ++ (if storageCodehashC.getByteRev IS_CODEHASH_MOD_POS = 1 then
    [⟨.proofTypeCol, baseOffset + 5, (ProofType.CodeHashExists.scalar : F)⟩]
   else [])
  ++ [⟨.valuePrevCol, baseOffset + 5, codehashValueRlc true⟩,
      ⟨.valueCol, baseOffset + 5, codehashValueRlc false⟩]

/-! ## Concrete evaluation witnesses

The theorems below are stated over an arbitrary field; the following
concrete rows and environments over the prime field `ZMod 101` let each
theorem with a hypothesis be evaluated at an explicit satisfying input. -/

instance : Fact (Nat.Prime 101) := ⟨by norm_num⟩

/-- A selectors row with every column zero (used as the previous row of a
first enabled row, where no transition identity is active). -/
def sZeroRow : SelRow (ZMod 101) :=
  ⟨0, 0, 0, 0, 0, 0, 0, 0, 0, 0, 0, 0, 0, 0, 0, 0, 0,
   0, 0, 0, 0, 0, 0, 0, 0, 0, 0, 0, 0, 0, 0, 0, 0, 0⟩

/-- A first enabled row: an account-leaf-key-S row of a nonce-modification
proof. -/
def sFirstRow : SelRow (ZMod 101) :=
  { sZeroRow with qEnable := 1, isAccountLeafKeyS := 1, isNonceMod := 1 }

/-- The row after `sFirstRow`: an account-leaf-key-C row of the same
nonce-modification proof, still in the first trie level. -/
def sSecondRow : SelRow (ZMod 101) :=
  { sZeroRow with
    qEnable := 1
    qNotFirst := 1
    isAccountLeafKeyC := 1
    isNonceMod := 1 }

/-- A satisfying account-leaf environment: both sides identical, no
placeholders, a nonce field of one byte and a balance field of one byte. -/
def envW : ALEnv (ZMod 101) where
  r := 1
  keyDataRlc := fun _ => 0
  keyDataMult := fun _ => 1
  keyDataNumNibbles := fun _ => 0
  keyDataIsOdd := fun _ => 0
  keyDataIsPlaceholderLeafC := fun _ => 0
  parentDataRlc := fun _ => 5
  parentDataIsPlaceholder := fun _ => 0
  isEmptyTrie := fun _ => 0
  rlpKeyRlc := fun _ => 2
  leafKeyRlc := fun _ => 7
  rlpKeyNumBytes := fun _ => 75
  rlpKeyNumBytesOnKeyRow := fun _ => 3
  rlpKeyNumKeyNibbles := fun _ => 64
  nonceRlc := fun _ => 9
  nonceRlpRlc := fun _ => 3
  nonceNumBytes := fun _ => 1
  balanceRlc := fun _ => 10
  balanceRlpRlc := fun _ => 4
  balanceNumBytes := fun _ => 1
  storageRlc := fun _ => 11
  storageRlpRlc := fun _ => 13
  storageLen := fun _ => 32
  codehashRlc := fun _ => 12
  codehashRlpRlc := fun _ => 14
  codehashLen := fun _ => 32
  keyMult := fun _ => 1
  nonceMult := fun _ => 1
  balanceMult := fun _ => 1
  valueRlpBytes := fun _ i => [184, 70, 248, 68].get i
  isAccountDeleteMod := 0
  isNonceMod := 0
  isBalanceMod := 0
  isStorageMod := 0
  isCodehashMod := 0
  isNonExistingAccountProof := 0
  addressRlc := 7
  valuePrevNonce := 9
  valueNonce := 9
  valuePrevBalance := 10
  valueBalance := 10
  valuePrevStorage := 11
  valueStorage := 11
  valuePrevCodehash := 12
  valueCodehash := 12

/-- A satisfying account-leaf environment for an account-deletion proof:
as `envW` but with the delete flag set and a placeholder leaf on the C
side. -/
def envDel : ALEnv (ZMod 101) :=
  { envW with isAccountDeleteMod := 1, keyDataIsPlaceholderLeafC := fun _ => 1 }

/-- A witness row whose flag bytes are all 1. -/
def rowAllOnes : MptWitnessRow := ⟨fun _ => 1⟩

/-- A witness row whose flag bytes are all 0. -/
def rowAllZeros : MptWitnessRow := ⟨fun _ => 0⟩

/-! ## Helper lemmas -/

/-- A vanishing `require_in_set` product over a one-element predecessor set
forces that predecessor to be active. -/
theorem predOfSet1 {a : F} (h : (1 - a) * 1 = 0) : a = 1 := by
  rw [mul_one] at h
  exact (sub_eq_zero.mp h).symm

/-- A value satisfying the booleanness identity `s * (1 - s) = 0` of
`require!(s => bool)` is 0 or 1. -/
theorem boolConstraint {s : F} (h : s * (1 - s) = 0) : s = 0 ∨ s = 1 := by
  rcases mul_eq_zero.mp h with h0 | h1
  · exact Or.inl h0
  · exact Or.inr (sub_eq_zero.mp h1).symm

/-- From `1 - x = 0` conclude `x = 1`. -/
theorem eq_one_of_one_sub_eq_zero {x : F} (h : 1 - x = 0) : x = 1 :=
  (sub_eq_zero.mp h).symm

/-- A vanishing `require_in_set` product over a two-element predecessor set
forces one predecessor to be active. -/
theorem predOfSet2 {a b : F} (h : (1 - a) * ((1 - b) * 1) = 0) :
    a = 1 ∨ b = 1 := by
  rw [mul_one] at h
  rcases mul_eq_zero.mp h with h1 | h1
  · exact Or.inl (eq_one_of_one_sub_eq_zero h1)
  · exact Or.inr (eq_one_of_one_sub_eq_zero h1)

/-- A vanishing `require_in_set` product over a three-element predecessor
set forces one predecessor to be active. -/
theorem predOfSet3 {a b c : F} (h : (1 - a) * ((1 - b) * ((1 - c) * 1)) = 0) :
    a = 1 ∨ b = 1 ∨ c = 1 := by
  rcases mul_eq_zero.mp h with h1 | h1
  · exact Or.inl (eq_one_of_one_sub_eq_zero h1)
  · rw [mul_one] at h1
    rcases mul_eq_zero.mp h1 with h2 | h2
    · exact Or.inr (Or.inl (eq_one_of_one_sub_eq_zero h2))
    · exact Or.inr (Or.inr (eq_one_of_one_sub_eq_zero h2))

/-! ## Claim theorems: account leaf gadget -/

/-- C1: for each side `is_s` of an account-leaf region, the gadget
registers exactly one keccak hash lookup per side, with tuple
`(1, leaf_rlc, num_bytes, parent_data.rlc)`, and its condition elides the
lookup exactly when the leaf is a placeholder standing in for no leaf here
(parent not a placeholder branch and the parent slot empty), while the
lookup is required in every other case — in particular whenever the parent
is a real, non-empty node. -/
theorem accountLeaf_C1 (e : ALEnv F) (s : Bool)
    (hp : e.parentDataIsPlaceholder s = 0 ∨ e.parentDataIsPlaceholder s = 1)
    (he : e.isEmptyTrie s = 0 ∨ e.isEmptyTrie s = 1) :
    (AccountLeafConfig.configure e).lookups.filter
        (fun l => l.table == LookupTable.keccak) =
      [keccakLookup e true, keccakLookup e false] ∧
    ((keccakLookup e s).cond = 0 ↔
      e.parentDataIsPlaceholder s = 0 ∧ e.isEmptyTrie s = 1) ∧
    ((keccakLookup e s).cond = 1 ↔
      ¬(e.parentDataIsPlaceholder s = 0 ∧ e.isEmptyTrie s = 1)) := by
  refine ⟨rfl, ?_, ?_⟩ <;>
    (rcases hp with hp | hp <;> rcases he with he | he <;>
      simp [keccakLookup, hp, he])

/-- Witness for C1 at the concrete satisfying environment `envW`. -/
theorem accountLeaf_C1_witness :
    (envW.parentDataIsPlaceholder true = 0 ∨ envW.parentDataIsPlaceholder true = 1) ∧
    (envW.isEmptyTrie true = 0 ∨ envW.isEmptyTrie true = 1) ∧
    ((AccountLeafConfig.configure envW).lookups.filter
        (fun l => l.table == LookupTable.keccak) =
      [keccakLookup envW true, keccakLookup envW false] ∧
     ((keccakLookup envW true).cond = 0 ↔
       envW.parentDataIsPlaceholder true = 0 ∧ envW.isEmptyTrie true = 1) ∧
     ((keccakLookup envW true).cond = 1 ↔
       ¬(envW.parentDataIsPlaceholder true = 0 ∧ envW.isEmptyTrie true = 1))) :=
  ⟨by decide, by decide, accountLeaf_C1 envW true (by decide) (by decide)⟩

/-- C2: in an account-leaf region whose proof type is not account-deletion,
each of the four account fields whose proof-type flag is not set on its
lookup row must have equal before-side and after-side RLCs. -/
theorem accountLeaf_C2 (e : ALEnv F) (h : accountLeafHolds e)
    (hdel : e.isAccountDeleteMod = 0) :
    (e.isNonceMod = 0 → e.nonceRlc false = e.nonceRlc true) ∧
    (e.isBalanceMod = 0 → e.balanceRlc false = e.balanceRlc true) ∧
    (e.isStorageMod = 0 → e.storageRlc false = e.storageRlc true) ∧
    (e.isCodehashMod = 0 → e.codehashRlc false = e.codehashRlc true) := by
  refine ⟨fun hm => ?_, fun hm => ?_, fun hm => ?_, fun hm => ?_⟩
  · have hc := h ((1 - e.isAccountDeleteMod) *
        ((1 - e.isNonceMod) * (e.nonceRlc false - e.nonceRlc true)))
      (by simp [AccountLeafConfig.configure, sideConstraints])
    rw [hdel, hm] at hc
    exact sub_eq_zero.mp (by simpa using hc)
  · have hc := h ((1 - e.isAccountDeleteMod) *
        ((1 - e.isBalanceMod) * (e.balanceRlc false - e.balanceRlc true)))
      (by simp [AccountLeafConfig.configure, sideConstraints])
    rw [hdel, hm] at hc
    exact sub_eq_zero.mp (by simpa using hc)
  · have hc := h ((1 - e.isAccountDeleteMod) *
        ((1 - e.isStorageMod) * (e.storageRlc false - e.storageRlc true)))
      (by simp [AccountLeafConfig.configure, sideConstraints])
    rw [hdel, hm] at hc
    exact sub_eq_zero.mp (by simpa using hc)
  · have hc := h ((1 - e.isAccountDeleteMod) *
        ((1 - e.isCodehashMod) * (e.codehashRlc false - e.codehashRlc true)))
      (by simp [AccountLeafConfig.configure, sideConstraints])
    rw [hdel, hm] at hc
    exact sub_eq_zero.mp (by simpa using hc)

/-- Witness for C2 at the concrete satisfying environment `envW`. -/
theorem accountLeaf_C2_witness :
    accountLeafHolds envW ∧ envW.isAccountDeleteMod = 0 ∧
    ((envW.isNonceMod = 0 → envW.nonceRlc false = envW.nonceRlc true) ∧
     (envW.isBalanceMod = 0 → envW.balanceRlc false = envW.balanceRlc true) ∧
     (envW.isStorageMod = 0 → envW.storageRlc false = envW.storageRlc true) ∧
     (envW.isCodehashMod = 0 → envW.codehashRlc false = envW.codehashRlc true)) :=
  ⟨by decide, by decide, accountLeaf_C2 envW (by decide) (by decide)⟩

/-- C3: for every witness satisfying the account-leaf identities and each
side, the nibble count accumulated by the ancestor branches plus the nibble
count contributed by the leaf key equals `KEY_LEN_IN_NIBBLES` (64). -/
theorem accountLeaf_C3 (e : ALEnv F) (h : accountLeafHolds e) (s : Bool) :
    e.keyDataNumNibbles s + e.rlpKeyNumKeyNibbles s = (KEY_LEN_IN_NIBBLES : F) := by
  apply sub_eq_zero.mp
  apply h
  cases s <;> simp [AccountLeafConfig.configure, sideConstraints]

/-- Witness for C3 at the concrete satisfying environment `envW`. -/
theorem accountLeaf_C3_witness :
    accountLeafHolds envW ∧
    envW.keyDataNumNibbles true + envW.rlpKeyNumKeyNibbles true =
      (KEY_LEN_IN_NIBBLES : ZMod 101) :=
  ⟨by decide, accountLeaf_C3 envW (by decide) true⟩

/-- C7: whenever the account-delete-mod flag is set on an account-leaf
region, the identities force the C-side key data placeholder-leaf flag or
the C-side parent placeholder flag to be set. -/
theorem accountLeaf_C7 (e : ALEnv F) (h : accountLeafHolds e)
    (hdel : e.isAccountDeleteMod = 1) :
    e.keyDataIsPlaceholderLeafC false = 1 ∨
    e.parentDataIsPlaceholder false = 1 := by
  have hc := h (e.isAccountDeleteMod *
      (orE (e.keyDataIsPlaceholderLeafC false) (e.parentDataIsPlaceholder false) - 1))
    (by simp [AccountLeafConfig.configure, sideConstraints])
  rw [hdel, one_mul, orE] at hc
  have hprod : (1 - e.keyDataIsPlaceholderLeafC false) *
      (1 - e.parentDataIsPlaceholder false) = 0 := by linear_combination -hc
  rcases mul_eq_zero.mp hprod with h1 | h1
  · exact Or.inl (eq_one_of_one_sub_eq_zero h1)
  · exact Or.inr (eq_one_of_one_sub_eq_zero h1)

/-- Witness for C7 at the concrete account-deletion environment `envDel`. -/
theorem accountLeaf_C7_witness :
    accountLeafHolds envDel ∧ envDel.isAccountDeleteMod = 1 ∧
    (envDel.keyDataIsPlaceholderLeafC false = 1 ∨
     envDel.parentDataIsPlaceholder false = 1) :=
  ⟨by decide, by decide, accountLeaf_C7 envDel (by decide) (by decide)⟩

/-- C8: for each side of a satisfying account-leaf region, the declared
inner value-list length byte `value_rlp_bytes[3]` equals the number of
nonce bytes plus the number of balance bytes plus `2 * (1 + 32) = 66`, the
fixed contribution of the storage root and code hash (one length byte plus
32 hash bytes each). -/
theorem accountLeaf_C8 (e : ALEnv F) (h : accountLeafHolds e) (s : Bool) :
    e.valueRlpBytes s 3 = e.nonceNumBytes s + e.balanceNumBytes s + 66 := by
  have hc := h (e.valueRlpBytes s 3 -
      (e.nonceNumBytes s + e.balanceNumBytes s + (2 * (1 + 32) : ℕ)))
    (by cases s <;> simp [AccountLeafConfig.configure, sideConstraints])
  have heq := sub_eq_zero.mp hc
  rw [heq]
  norm_num

/-- Witness for C8 at the concrete satisfying environment `envW`. -/
theorem accountLeaf_C8_witness :
    accountLeafHolds envW ∧
    envW.valueRlpBytes true 3 =
      envW.nonceNumBytes true + envW.balanceNumBytes true + 66 :=
  ⟨by decide, accountLeaf_C8 envW (by decide) true⟩

/-- C9: for each side, the gadget's configure-time memory stores contain
exactly one parent-channel store for that side, with values
`[storage_rlc, true, false, storage_rlc]`; the assignment-time
`witness_store` passes the same tuple at that side's storage-root value
RLC; and the decoded ParentData of the stored tuple carries the
storage-root RLC as both `rlc` and `hash_rlc` and is marked
not-placeholder. -/
theorem accountLeaf_C9 (e : ALEnv F) (s : Bool) :
    ((AccountLeafConfig.configure e).memOps.filterMap
        (fun op => match op with
          | .parentStore side v => if side = s then some v else none
          | .keyStore _ _ => none)) =
      [[e.storageRlc s, 1, 0, e.storageRlc s]] ∧
    assignParentStoreValues (e.storageRlc s) = [e.storageRlc s, 1, 0, e.storageRlc s] ∧
    decodeParentData [e.storageRlc s, 1, 0, e.storageRlc s] =
      { rlc := e.storageRlc s, markerFlag := 1, isPlaceholder := 0,
        hashRlc := e.storageRlc s } := by
  refine ⟨?_, rfl, rfl⟩
  cases s <;> rfl

/-- C10: during witness assignment of the lookup-data section, if the
reversed account-delete-mod flag byte of the key-S witness row equals 1,
the `proof_type` cell at the key-S row offset `base_offset - 1` is assigned
the numeric code of `ProofType::AccountDoesNotExist`; otherwise no write of
this section targets the `proof_type` cell at that offset. -/
theorem accountLeaf_C10 (keyS nbS nbC scC : MptWitnessRow) (base : ℕ)
    (nv bv sv cv : Bool → F) :
    (keyS.getByteRev IS_ACCOUNT_DELETE_MOD_POS = 1 →
      (⟨MptCol.proofTypeCol, base - 1, (ProofType.AccountDoesNotExist.scalar : F)⟩ :
          CellWrite F) ∈ accountLeafLookupWrites keyS nbS nbC scC base nv bv sv cv) ∧
    (keyS.getByteRev IS_ACCOUNT_DELETE_MOD_POS ≠ 1 →
      ∀ w ∈ accountLeafLookupWrites keyS nbS nbC scC base nv bv sv cv,
        w.col = MptCol.proofTypeCol → w.offset ≠ base - 1) := by
  constructor
  · intro hflag
    simp [accountLeafLookupWrites, hflag]
  · intro hflag w hw hcol
    by_cases h2 : nbS.getByteRev IS_NONCE_MOD_POS = 1 <;>
      by_cases h3 : nbC.getByteRev IS_BALANCE_MOD_POS = 1 <;>
        by_cases h4 : scC.getByteRev IS_CODEHASH_MOD_POS = 1 <;>
          simp [accountLeafLookupWrites, hflag, h2, h3, h4] at hw <;>
            casesm* _ ∨ _ <;> subst_vars <;> simp_all <;> omega

/-- Witness for C10: with the delete flag byte set and `base_offset = 1`,
the `proof_type` write at offset 0 is emitted. -/
theorem accountLeaf_C10_witness :
    (⟨MptCol.proofTypeCol, 0, (ProofType.AccountDoesNotExist.scalar : ZMod 101)⟩ :
        CellWrite (ZMod 101)) ∈
      accountLeafLookupWrites rowAllOnes rowAllZeros rowAllZeros rowAllZeros 1
        (fun _ => 0) (fun _ => 0) (fun _ => 0) (fun _ => 0) :=
  (accountLeaf_C10 rowAllOnes rowAllZeros rowAllZeros rowAllZeros 1
    (fun _ => 0) (fun _ => 0) (fun _ => 0) (fun _ => 0)).1 (by decide)

/-! ## Claim theorems: selectors automaton -/

/-- C4: on every enabled row, every row-type selector, proof-type selector
and misc selector is boolean, the sum of the 18 row-type selectors is
exactly 1, and the sum of the 7 proof-type selectors is exactly 1. -/
theorem selectors_C4 (p c : SelRow F) (h : selectorsHolds p c)
    (hq : c.qEnable = 1) :
    (∀ s ∈ miscSelectors c ++ rowTypeSelectors c ++ proofTypeSelectors c,
        s = 0 ∨ s = 1) ∧
    (rowTypeSelectors c).length = 18 ∧ (proofTypeSelectors c).length = 7 ∧
    (rowTypeSelectors c).sum = 1 ∧ (proofTypeSelectors c).sum = 1 := by
  simp only [selectorsHolds, SelectorsConfig.configure, miscSelectors, rowTypeSelectors,
    proofTypeSelectors, proofRowPairs, selTransitions, proofFlagPairs, orE,
    List.map_cons, List.map_nil, List.cons_append, List.nil_append,
    List.forall_mem_cons, List.sum_cons, List.sum_nil, List.prod_cons, List.prod_nil,
    hq, one_mul] at h
  obtain ⟨h1, h2, h3, h4, h5, h6, h7, h8, h9, h10, h11, h12, h13, h14, h15, h16,
    h17, h18, h19, h20, h21, h22, h23, h24, h25, h26, h27, h28, h29, h30, h31,
    h32, h33, -⟩ := h
  refine ⟨?_, rfl, rfl, ?_, ?_⟩
  · intro s hs
    simp only [miscSelectors, rowTypeSelectors, proofTypeSelectors,
      List.mem_append, List.mem_cons, List.not_mem_nil, or_false, or_assoc] at hs
    rcases hs with rfl | rfl | rfl | rfl | rfl | rfl | rfl | rfl | rfl | rfl |
      rfl | rfl | rfl | rfl | rfl | rfl | rfl | rfl | rfl | rfl | rfl | rfl |
      rfl | rfl | rfl | rfl | rfl | rfl | rfl | rfl | rfl
    · exact boolConstraint h1
    · exact boolConstraint h2
    · exact boolConstraint h3
    · exact boolConstraint h4
    · exact boolConstraint h5
    · exact boolConstraint h6
    · exact boolConstraint h7
    · exact boolConstraint h8
    · exact boolConstraint h9
    · exact boolConstraint h10
    · exact boolConstraint h11
    · exact boolConstraint h12
    · exact boolConstraint h13
    · exact boolConstraint h14
    · exact boolConstraint h15
    · exact boolConstraint h16
    · exact boolConstraint h17
    · exact boolConstraint h18
    · exact boolConstraint h19
    · exact boolConstraint h20
    · exact boolConstraint h21
    · exact boolConstraint h22
    · exact boolConstraint h23
    · exact boolConstraint h24
    · exact boolConstraint h25
    · exact boolConstraint h26
    · exact boolConstraint h27
    · exact boolConstraint h28
    · exact boolConstraint h29
    · exact boolConstraint h30
    · exact boolConstraint h31
  · simpa only [rowTypeSelectors, List.sum_cons, List.sum_nil] using
      sub_eq_zero.mp h32
  · simpa only [proofTypeSelectors, List.sum_cons, List.sum_nil] using
      sub_eq_zero.mp h33

/-- Witness for C4 at the concrete first enabled row `sFirstRow`. -/
theorem selectors_C4_witness :
    selectorsHolds sZeroRow sFirstRow ∧ sFirstRow.qEnable = 1 ∧
    ((∀ s ∈ miscSelectors sFirstRow ++ rowTypeSelectors sFirstRow ++
        proofTypeSelectors sFirstRow, s = 0 ∨ s = 1) ∧
     (rowTypeSelectors sFirstRow).length = 18 ∧
     (proofTypeSelectors sFirstRow).length = 7 ∧
     (rowTypeSelectors sFirstRow).sum = 1 ∧
     (proofTypeSelectors sFirstRow).sum = 1) :=
  ⟨by decide, by decide, selectors_C4 sZeroRow sFirstRow (by decide) (by decide)⟩

/-- C5: the row-type sequence obeys the fixed predecessor-set automaton: on
the first enabled row (`q_enable` and not `q_not_first`) the
account-leaf-key-S or branch-init selector must be active, and on every
later row (`q_not_first`) each row type whose selector is active forces one
of its declared predecessors to have been active on the previous row; a row
sequence violating a predecessor set therefore makes some registered
identity nonzero. -/
theorem selectors_C5 (p c : SelRow F) (h : selectorsHolds p c) :
    (c.qEnable = 1 → c.qNotFirst = 0 →
      c.isAccountLeafKeyS = 1 ∨ c.isBranchInit = 1) ∧
    (c.qNotFirst = 1 →
      (c.isBranchInit = 1 → p.isExtensionNodeC = 1 ∨
        p.isAccountLeafInAddedBranch = 1 ∨ p.isLeafNonExisting = 1) ∧
      (c.isAccountLeafKeyS = 1 →
        p.isExtensionNodeC = 1 ∨ p.isLeafNonExisting = 1) ∧
      (c.isLeafSKey = 1 →
        p.isExtensionNodeC = 1 ∨ p.isAccountLeafInAddedBranch = 1) ∧
      (c.isExtensionNodeS = 1 → p.isLastBranchChild = 1) ∧
      (c.isExtensionNodeC = 1 → p.isExtensionNodeS = 1) ∧
      (c.isAccountLeafKeyC = 1 → p.isAccountLeafKeyS = 1) ∧
      (c.isNonExistingAccountRow = 1 → p.isAccountLeafKeyC = 1) ∧
      (c.isAccountLeafNonceBalanceS = 1 → p.isNonExistingAccountRow = 1) ∧
      (c.isAccountLeafNonceBalanceC = 1 → p.isAccountLeafNonceBalanceS = 1) ∧
      (c.isAccountLeafStorageCodehashS = 1 → p.isAccountLeafNonceBalanceC = 1) ∧
      (c.isAccountLeafStorageCodehashC = 1 → p.isAccountLeafStorageCodehashS = 1) ∧
      (c.isAccountLeafInAddedBranch = 1 → p.isAccountLeafStorageCodehashC = 1) ∧
      (c.isLeafSValue = 1 → p.isLeafSKey = 1) ∧
      (c.isLeafCKey = 1 → p.isLeafSValue = 1) ∧
      (c.isLeafCValue = 1 → p.isLeafCKey = 1) ∧
      (c.isLeafInAddedBranch = 1 → p.isLeafCValue = 1) ∧
      (c.isLeafNonExisting = 1 → p.isLeafInAddedBranch = 1)) := by
  simp only [selectorsHolds, SelectorsConfig.configure, miscSelectors, rowTypeSelectors,
    proofTypeSelectors, proofRowPairs, selTransitions, proofFlagPairs, orE,
    List.map_cons, List.map_nil, List.cons_append, List.nil_append,
    List.forall_mem_cons, List.sum_cons, List.sum_nil, List.prod_cons,
    List.prod_nil] at h
  obtain ⟨-, -, -, -, -, -, -, -, -, -, -, -, -, -, -, -,
    -, -, -, -, -, -, -, -, -, -, -, -, -, -, -,
    -, -,
    -, -, -, -, -, -, -,
    -, -, -, -, -, -, -,
    h48, h49, h50, h51, h52, h53, h54, h55, h56, h57, h58, h59, h60, h61,
    h62, h63, h64, h65, -⟩ := h
  constructor
  · intro hq hq0
    rw [hq, hq0] at h48
    have hprod : (1 - c.isAccountLeafKeyS) * (1 - c.isBranchInit) = 0 := by
      linear_combination -h48
    rcases mul_eq_zero.mp hprod with h1 | h1
    · exact Or.inl (eq_one_of_one_sub_eq_zero h1)
    · exact Or.inr (eq_one_of_one_sub_eq_zero h1)
  · intro hqn
    refine ⟨?_, ?_, ?_, ?_, ?_, ?_, ?_, ?_, ?_, ?_, ?_, ?_, ?_, ?_, ?_, ?_, ?_⟩
    · intro hto
      rw [hqn, hto] at h49
      exact predOfSet3 (by simpa only [one_mul] using h49)
    · intro hto
      rw [hqn, hto] at h50
      exact predOfSet2 (by simpa only [one_mul] using h50)
    · intro hto
      rw [hqn, hto] at h51
      exact predOfSet2 (by simpa only [one_mul] using h51)
    · intro hto
      rw [hqn, hto] at h52
      exact predOfSet1 (by simpa only [one_mul] using h52)
    · intro hto
      rw [hqn, hto] at h53
      exact predOfSet1 (by simpa only [one_mul] using h53)
    · intro hto
      rw [hqn, hto] at h54
      exact predOfSet1 (by simpa only [one_mul] using h54)
    · intro hto
      rw [hqn, hto] at h55
      exact predOfSet1 (by simpa only [one_mul] using h55)
    · intro hto
      rw [hqn, hto] at h56
      exact predOfSet1 (by simpa only [one_mul] using h56)
    · intro hto
      rw [hqn, hto] at h57
      exact predOfSet1 (by simpa only [one_mul] using h57)
    · intro hto
      rw [hqn, hto] at h58
      exact predOfSet1 (by simpa only [one_mul] using h58)
    · intro hto
      rw [hqn, hto] at h59
      exact predOfSet1 (by simpa only [one_mul] using h59)
    · intro hto
      rw [hqn, hto] at h60
      exact predOfSet1 (by simpa only [one_mul] using h60)
    · intro hto
      rw [hqn, hto] at h61
      exact predOfSet1 (by simpa only [one_mul] using h61)
    · intro hto
      rw [hqn, hto] at h62
      exact predOfSet1 (by simpa only [one_mul] using h62)
    · intro hto
      rw [hqn, hto] at h63
      exact predOfSet1 (by simpa only [one_mul] using h63)
    · intro hto
      rw [hqn, hto] at h64
      exact predOfSet1 (by simpa only [one_mul] using h64)
    · intro hto
      rw [hqn, hto] at h65
      exact predOfSet1 (by simpa only [one_mul] using h65)

/-- Witness for C5 at the concrete pair (`sZeroRow`, `sFirstRow`). -/
theorem selectors_C5_witness :
    selectorsHolds sZeroRow sFirstRow ∧
    ((sFirstRow.qEnable = 1 → sFirstRow.qNotFirst = 0 →
       sFirstRow.isAccountLeafKeyS = 1 ∨ sFirstRow.isBranchInit = 1) ∧
     (sFirstRow.qNotFirst = 1 →
       (sFirstRow.isBranchInit = 1 → sZeroRow.isExtensionNodeC = 1 ∨
         sZeroRow.isAccountLeafInAddedBranch = 1 ∨ sZeroRow.isLeafNonExisting = 1) ∧
       (sFirstRow.isAccountLeafKeyS = 1 →
         sZeroRow.isExtensionNodeC = 1 ∨ sZeroRow.isLeafNonExisting = 1) ∧
       (sFirstRow.isLeafSKey = 1 →
         sZeroRow.isExtensionNodeC = 1 ∨ sZeroRow.isAccountLeafInAddedBranch = 1) ∧
       (sFirstRow.isExtensionNodeS = 1 → sZeroRow.isLastBranchChild = 1) ∧
       (sFirstRow.isExtensionNodeC = 1 → sZeroRow.isExtensionNodeS = 1) ∧
       (sFirstRow.isAccountLeafKeyC = 1 → sZeroRow.isAccountLeafKeyS = 1) ∧
       (sFirstRow.isNonExistingAccountRow = 1 → sZeroRow.isAccountLeafKeyC = 1) ∧
       (sFirstRow.isAccountLeafNonceBalanceS = 1 →
         sZeroRow.isNonExistingAccountRow = 1) ∧
       (sFirstRow.isAccountLeafNonceBalanceC = 1 →
         sZeroRow.isAccountLeafNonceBalanceS = 1) ∧
       (sFirstRow.isAccountLeafStorageCodehashS = 1 →
         sZeroRow.isAccountLeafNonceBalanceC = 1) ∧
       (sFirstRow.isAccountLeafStorageCodehashC = 1 →
         sZeroRow.isAccountLeafStorageCodehashS = 1) ∧
       (sFirstRow.isAccountLeafInAddedBranch = 1 →
         sZeroRow.isAccountLeafStorageCodehashC = 1) ∧
       (sFirstRow.isLeafSValue = 1 → sZeroRow.isLeafSKey = 1) ∧
       (sFirstRow.isLeafCKey = 1 → sZeroRow.isLeafSValue = 1) ∧
       (sFirstRow.isLeafCValue = 1 → sZeroRow.isLeafCKey = 1) ∧
       (sFirstRow.isLeafInAddedBranch = 1 → sZeroRow.isLeafCValue = 1) ∧
       (sFirstRow.isLeafNonExisting = 1 → sZeroRow.isLeafInAddedBranch = 1))) :=
  ⟨by decide, selectors_C5 sZeroRow sFirstRow (by decide)⟩

/-- C6: under `q_not_first`, each of the seven proof-type flags persists
from one row to the next: when `not_first_level` is set the flag equals its
previous value, and inside the first level it equals its previous value on
every row that is neither a branch-init row nor an account-leaf-key-S
row. -/
theorem selectors_C6 (p c : SelRow F) (h : selectorsHolds p c)
    (hqn : c.qNotFirst = 1) :
    (c.notFirstLevel = 1 →
      p.isNonceMod = c.isNonceMod ∧ p.isBalanceMod = c.isBalanceMod ∧
      p.isCodehashMod = c.isCodehashMod ∧
      p.isNonExistingAccountProof = c.isNonExistingAccountProof ∧
      p.isAccountDeleteMod = c.isAccountDeleteMod ∧
      p.isStorageMod = c.isStorageMod ∧
      p.isNonExistingStorageProof = c.isNonExistingStorageProof) ∧
    (c.notFirstLevel = 0 → c.isBranchInit = 0 → c.isAccountLeafKeyS = 0 →
      p.isNonceMod = c.isNonceMod ∧ p.isBalanceMod = c.isBalanceMod ∧
      p.isCodehashMod = c.isCodehashMod ∧
      p.isNonExistingAccountProof = c.isNonExistingAccountProof ∧
      p.isAccountDeleteMod = c.isAccountDeleteMod ∧
      p.isStorageMod = c.isStorageMod ∧
      p.isNonExistingStorageProof = c.isNonExistingStorageProof) := by
  simp only [selectorsHolds, SelectorsConfig.configure, miscSelectors, rowTypeSelectors,
    proofTypeSelectors, proofRowPairs, selTransitions, proofFlagPairs, orE,
    List.map_cons, List.map_nil, List.cons_append, List.nil_append,
    List.forall_mem_cons, List.sum_cons, List.sum_nil, List.prod_cons,
    List.prod_nil] at h
  obtain ⟨-, -, -, -, -, -, -, -, -, -, -, -, -, -, -, -,
    -, -, -, -, -, -, -, -, -, -, -, -, -, -, -,
    -, -,
    -, -, -, -, -, -, -,
    -, -, -, -, -, -, -,
    -, -, -, -, -, -, -, -, -, -, -, -, -, -, -, -, -, -,
    h66, h67, h68, h69, h70, h71, h72,
    h73, h74, h75, h76, h77, h78, h79, -⟩ := h
  constructor
  · intro hnfl
    refine ⟨?_, ?_, ?_, ?_, ?_, ?_, ?_⟩
    · rw [hqn, hnfl] at h66
      exact sub_eq_zero.mp (by simpa only [one_mul] using h66)
    · rw [hqn, hnfl] at h67
      exact sub_eq_zero.mp (by simpa only [one_mul] using h67)
    · rw [hqn, hnfl] at h68
      exact sub_eq_zero.mp (by simpa only [one_mul] using h68)
    · rw [hqn, hnfl] at h69
      exact sub_eq_zero.mp (by simpa only [one_mul] using h69)
    · rw [hqn, hnfl] at h70
      exact sub_eq_zero.mp (by simpa only [one_mul] using h70)
    · rw [hqn, hnfl] at h71
      exact sub_eq_zero.mp (by simpa only [one_mul] using h71)
    · rw [hqn, hnfl] at h72
      exact sub_eq_zero.mp (by simpa only [one_mul] using h72)
  · intro hnfl hbi haks
    refine ⟨?_, ?_, ?_, ?_, ?_, ?_, ?_⟩
    · rw [hqn, hnfl, hbi, haks] at h73
      exact sub_eq_zero.mp (by simpa using h73)
    · rw [hqn, hnfl, hbi, haks] at h74
      exact sub_eq_zero.mp (by simpa using h74)
    · rw [hqn, hnfl, hbi, haks] at h75
      exact sub_eq_zero.mp (by simpa using h75)
    · rw [hqn, hnfl, hbi, haks] at h76
      exact sub_eq_zero.mp (by simpa using h76)
    · rw [hqn, hnfl, hbi, haks] at h77
      exact sub_eq_zero.mp (by simpa using h77)
    · rw [hqn, hnfl, hbi, haks] at h78
      exact sub_eq_zero.mp (by simpa using h78)
    · rw [hqn, hnfl, hbi, haks] at h79
      exact sub_eq_zero.mp (by simpa using h79)

/-- Witness for C6 at the concrete pair (`sFirstRow`, `sSecondRow`). -/
theorem selectors_C6_witness :
    selectorsHolds sFirstRow sSecondRow ∧ sSecondRow.qNotFirst = 1 ∧
    ((sSecondRow.notFirstLevel = 1 →
       sFirstRow.isNonceMod = sSecondRow.isNonceMod ∧
       sFirstRow.isBalanceMod = sSecondRow.isBalanceMod ∧
       sFirstRow.isCodehashMod = sSecondRow.isCodehashMod ∧
       sFirstRow.isNonExistingAccountProof = sSecondRow.isNonExistingAccountProof ∧
       sFirstRow.isAccountDeleteMod = sSecondRow.isAccountDeleteMod ∧
       sFirstRow.isStorageMod = sSecondRow.isStorageMod ∧
       sFirstRow.isNonExistingStorageProof = sSecondRow.isNonExistingStorageProof) ∧
     (sSecondRow.notFirstLevel = 0 → sSecondRow.isBranchInit = 0 →
       sSecondRow.isAccountLeafKeyS = 0 →
       sFirstRow.isNonceMod = sSecondRow.isNonceMod ∧
       sFirstRow.isBalanceMod = sSecondRow.isBalanceMod ∧
       sFirstRow.isCodehashMod = sSecondRow.isCodehashMod ∧
       sFirstRow.isNonExistingAccountProof = sSecondRow.isNonExistingAccountProof ∧
       sFirstRow.isAccountDeleteMod = sSecondRow.isAccountDeleteMod ∧
       sFirstRow.isStorageMod = sSecondRow.isStorageMod ∧
       sFirstRow.isNonExistingStorageProof = sSecondRow.isNonExistingStorageProof)) :=
  ⟨by decide, by decide, selectors_C6 sFirstRow sSecondRow (by decide) (by decide)⟩

end ZkevmMpt
